import Mathlib

/-!
Shallow embedding of `src/scrollvars.js` (ScrollVars v1.0.0).

JavaScript numbers are modelled as rationals (ℚ): all the arithmetic the
claims depend on (comparisons, `+ - * /`, `Math.min`, `Math.max`) is exact
on the inputs involved, and the source guards every division so that the
denominator is positive whenever the division is evaluated.  The one place
where JS float behaviour is observable — `Number(...)` overflowing to
`Infinity`, which the `Number.isFinite` checks in `parseSpec` then reject —
is modelled explicitly by the overflow bound in `isFiniteRaw` below.

The parser (`parseSpec`) is embedded in two layers so that the string
processing stays kernel-computable: layer one produces numbers as
unreduced fractions `Int × Nat` (numerator over a power of ten), and layer
two converts them to ℚ.
-/

/-- One parsed entry of the `data-sv` mini-language:
`{ name, min, max, init }` (source `parseSpec`, line 166). -/
structure RangeSpec where
  name : String
  min : ℚ
  max : ℚ
  init : ℚ
deriving Repr, DecidableEq

/-- `computeProgress` (source lines 173–189), with the geometry reads
`rect.top`, `rect.bottom`, `window.innerHeight` made explicit parameters,
as in the spec's contract
`computeProgress(elementTop, elementBottom, viewportHeight, start, end)`:

```
const startPx = start * vh;
const endPx   = end   * vh;
const A = rect.top    - startPx;
const B = rect.bottom - endPx;
if (A > 0)  return 0;
if (B <= 0) return 1;
const t = -A / (B - A);
return t;
``` -/
def computeProgress (elementTop elementBottom viewportHeight start end' : ℚ) : ℚ :=
  let startPx := start * viewportHeight
  let endPx := end' * viewportHeight
  let A := elementTop - startPx
  let B := elementBottom - endPx
  if A > 0 then 0
  else if B ≤ 0 then 1
  else -A / (B - A)

/-- `clamp01` (source line 207): `t < 0 ? 0 : (t > 1 ? 1 : t)`. -/
def clamp01 (t : ℚ) : ℚ :=
  if t < 0 then 0 else if t > 1 then 1 else t

/-- `mapByOrigin(t, s, origin)` (source lines 192–204).  The `switch`
falls through to the `"init"` formula for any string other than `"min"`
and `"center"` (cases `"init"` and `default` share a body). -/
def mapByOrigin (t : ℚ) (s : RangeSpec) (origin : String) : ℚ :=
  if origin = "min" then s.min + t * (s.max - s.min)
  else if origin = "center" then
    let mid := (s.min + s.max) / 2
    mid + (t - 1/2) * (s.max - s.min)
  else s.init + t * (s.max - s.init)

/-! ## The spec parser (source lines 150–169)

`part.match(/^([A-Za-z_\-][A-Za-z0-9_\-]*)\s*=\s*([^@]+?)(?:@(.+))?$/)` and
`range.match(/^\s*([+\-]?\d+(?:\.\d+)?)\s*\.\.\s*([+\-]?\d+(?:\.\d+)?)\s*$/)`
are embedded as deterministic character-level parsers.  Both regexes are
backtracking-free in effect: name characters, whitespace, `=`, `@` and `.`
never overlap in a way that gives the engine a second viable path (the lazy
group `([^@]+?)(?:@(.+))?$` splits at the first `@` when one exists with at
least one character after it), so the greedy scan below computes the same
match.  -/

/-- A number as an unreduced fraction: numerator over a positive
denominator that is a power of ten (times a power of two for nothing —
hex literals have denominator 1). -/
abbrev RawNum := Int × Nat

/-- Layer-one parse result: a `RangeSpec` whose numbers are still
unreduced fractions. -/
structure RawEntry where
  name : String
  min : RawNum
  max : RawNum
  init : RawNum
deriving Repr, DecidableEq

/-- The whitespace class used by JS `String.prototype.trim` and the
regex `\s`, restricted to the ASCII characters that can occur here. -/
def isWs (c : Char) : Bool :=
  c = ' ' || c = '\t' || c = '\n' || c = '\r' || c = '\x0b' || c = '\x0c'

/-- JS `str.trim()` on a character list. -/
def trimChars (l : List Char) : List Char :=
  ((l.dropWhile isWs).reverse.dropWhile isWs).reverse

/-- JS `raw.split(";")`: split on every `;`, keeping empty pieces
(`"".split(";") == [""]`, `";".split(";") == ["",""]`). -/
def splitOnChar (sep : Char) : List Char → List (List Char)
  | [] => [[]]
  | c :: cs =>
    match splitOnChar sep cs with
    | [] => [[c]]
    | p :: ps => if c = sep then [] :: p :: ps else (c :: p) :: ps

/-- `[A-Za-z_\-]` (first character of a name). -/
def isNameStart (c : Char) : Bool := c.isAlpha || c = '_' || c = '-'

/-- `[A-Za-z0-9_\-]` (subsequent characters of a name). -/
def isNameChar (c : Char) : Bool := c.isAlphanum || c = '_' || c = '-'

/-- The entry regex `^([A-Za-z_\-][A-Za-z0-9_\-]*)\s*=\s*([^@]+?)(?:@(.+))?$`
applied to one trimmed part: returns `(name, rawRange, rawInit?)`.
The lazy middle group takes everything before the first `@` when an `@`
exists with a nonempty tail after it; with no `@` it takes the whole rest;
both groups must be nonempty. -/
def matchEntry (part : List Char) : Option (List Char × List Char × Option (List Char)) :=
  match part with
  | [] => none
  | c :: rest =>
    if isNameStart c then
      let name := c :: rest.takeWhile isNameChar
      let r1 := (rest.dropWhile isNameChar).dropWhile isWs
      match r1 with
      | '=' :: r2 =>
        let body := r2.dropWhile isWs
        if body.any (· = '@') then
          let range := body.takeWhile (· ≠ '@')
          let afterAt := (body.dropWhile (· ≠ '@')).tail
          if range = [] || afterAt = [] then none else some (name, range, some afterAt)
        else if body = [] then none else some (name, body, none)
      | _ => none
    else none

/-- Digit run to a natural number. -/
def digitsToNat (l : List Char) : Nat :=
  l.foldl (fun a c => a * 10 + (c.toNat - '0'.toNat)) 0

/-- One range literal `[+\-]?\d+(?:\.\d+)?`: the fractional part is taken
exactly when the `.` is followed by a digit (matching the regex, where a
declined fractional part could never let the following `\s*\.\.` match a
`.` followed by a digit).  Returns the value and the unconsumed rest. -/
def parseRangeNum (l : List Char) : Option (RawNum × List Char) :=
  let (sgn, l1) : Int × List Char :=
    match l with
    | '+' :: r => (1, r)
    | '-' :: r => (-1, r)
    | r => (1, r)
  let ds := l1.takeWhile Char.isDigit
  let r1 := l1.dropWhile Char.isDigit
  if ds = [] then none
  else
    match r1 with
    | '.' :: r2 =>
      let fs := r2.takeWhile Char.isDigit
      if fs = [] then some ((sgn * digitsToNat ds, 1), r1)
      else
        some ((sgn * (digitsToNat ds * 10 ^ fs.length + digitsToNat fs), 10 ^ fs.length),
          r2.dropWhile Char.isDigit)
    | _ => some ((sgn * digitsToNat ds, 1), r1)

/-- The range regex `^\s*(num)\s*\.\.\s*(num)\s*$`. -/
def matchRange (l : List Char) : Option (RawNum × RawNum) :=
  match parseRangeNum (l.dropWhile isWs) with
  | none => none
  | some (n1, r1) =>
    match r1.dropWhile isWs with
    | '.' :: '.' :: r2 =>
      match parseRangeNum (r2.dropWhile isWs) with
      | none => none
      | some (n2, r3) => if r3.dropWhile isWs = [] then some (n1, n2) else none
    | _ => none

/-- A double overflows to `Infinity` exactly when the real value is at
least `2^1024 - 2^970` (the round-to-nearest cutoff above the largest
finite double `2^1024 - 2^971`); `Number.isFinite` then rejects it.
Written as a decimal literal so that kernel reduction never unfolds a
1024-fold exponentiation; `doubleOverflowCutoff_eq` below checks the
literal. -/
def doubleOverflowCutoff : Nat :=
  179769313486231580793728971405303415079934132710037826936173778980444968292764750946649017977587207096330286416692887910946555547851940402630657488671505820681908902000708383676273854845817711531764475730270069855571366959622842914819860834936475292719074168444365510704342711559699508093042880177904174497792

/-- `isFiniteRaw (n, d)` decides `|n| / d < 2^1024 - 2^970`, i.e. that
`Number(...)` produced a finite double from the exact value `n / d`. -/
def isFiniteRaw (p : RawNum) : Bool :=
  p.1.natAbs < doubleOverflowCutoff * p.2

/-- Hex digit test for `Number("0x...")`. -/
def isHexDigit (c : Char) : Bool :=
  c.isDigit || ('a' ≤ c && c ≤ 'f') || ('A' ≤ c && c ≤ 'F')

/-- Hex digit run to a natural number. -/
def hexToNat (l : List Char) : Nat :=
  l.foldl (fun a c =>
    a * 16 + (if c.isDigit then c.toNat - '0'.toNat
      else if 'a' ≤ c then c.toNat - 'a'.toNat + 10
      else c.toNat - 'A'.toNat + 10)) 0

/-- Optional exponent `(?:[eE][+\-]?\d+)?` of a JS decimal literal:
returns the exponent (0 when absent) and fails when an `e`/`E` is present
but malformed, or when characters remain. -/
def parseExponentEnd (l : List Char) : Option Int :=
  match l with
  | [] => some 0
  | e :: r =>
    if e = 'e' || e = 'E' then
      let (sgn, r1) : Int × List Char :=
        match r with
        | '+' :: r2 => (1, r2)
        | '-' :: r2 => (-1, r2)
        | r2 => (1, r2)
      let ds := r1.takeWhile Char.isDigit
      if ds = [] || (r1.dropWhile Char.isDigit) ≠ [] then none
      else some (sgn * digitsToNat ds)
    else none

/-- `Number(s)` on a trimmed string, composed with the `Number.isFinite`
check of source line 165: `some` the exact value when `Number(s)` is a
finite double's real preimage below the overflow cutoff, `none` when it
is `NaN` or `±Infinity` (non-numeric strings, `"Infinity"`, and literals
past the overflow bound all land in `none`).  Grammar: optional sign, then
`digits [. digits?] [exp]` or `. digits [exp]`; unsigned `0x`/`0X` hex,
`0o`/`0O` octal, `0b`/`0B` binary; empty string is `0`. -/
def jsFiniteNumber (l : List Char) : Option RawNum :=
  match l with
  | [] => some (0, 1)
  | _ =>
    let (sgn, hasSign, l1) : Int × Bool × List Char :=
      match l with
      | '+' :: r => (1, true, r)
      | '-' :: r => (-1, true, r)
      | r => (1, false, r)
    let radix : Option Nat :=
      if hasSign then none
      else match l1 with
        | '0' :: 'x' :: _ => some 16
        | '0' :: 'X' :: _ => some 16
        | '0' :: 'o' :: _ => some 8
        | '0' :: 'O' :: _ => some 8
        | '0' :: 'b' :: _ => some 2
        | '0' :: 'B' :: _ => some 2
        | _ => none
    match radix with
    | some b =>
      let digits := l1.drop 2
      let ok := digits ≠ [] && digits.all (fun c =>
        if b = 16 then isHexDigit c
        else if b = 8 then '0' ≤ c && c ≤ '7'
        else c = '0' || c = '1')
      if ok then
        let v : RawNum := ((hexToNat digits : Int), 1)
        if isFiniteRaw v then some v else none
      else none
    | none =>
      let ip := l1.takeWhile Char.isDigit
      let r1 := l1.dropWhile Char.isDigit
      let core : Option (Nat × Nat × List Char) :=
        match r1 with
        | '.' :: r2 =>
          let fs := r2.takeWhile Char.isDigit
          if ip = [] && fs = [] then none
          else some (digitsToNat ip * 10 ^ fs.length + digitsToNat fs, fs.length,
            r2.dropWhile Char.isDigit)
        | _ => if ip = [] then none else some (digitsToNat ip, 0, r1)
      match core with
      | none => none
      | some (m, flen, r2) =>
        match parseExponentEnd r2 with
        | none => none
        | some e =>
          let v : RawNum :=
            if e ≥ 0 then (sgn * m * 10 ^ e.toNat, 10 ^ flen)
            else (sgn * m, 10 ^ flen * 10 ^ (-e).toNat)
          if isFiniteRaw v then some v else none

/-- One loop iteration of `parseSpec` (source lines 154–167) on a trimmed
part: match the entry regex, trim and match the range, default `init` to
`min` when `@init` is absent, and discard the entry when `min`, `max` or
`init` is non-finite. -/
def parseEntry (part : List Char) : Option RawEntry :=
  match matchEntry part with
  | none => none
  | some (name, rawRange, rawInit?) =>
    match matchRange (trimChars rawRange) with
    | none => none
    | some (mn, mx) =>
      let init? : Option RawNum :=
        match rawInit? with
        | none => some mn
        | some ir => jsFiniteNumber (trimChars ir)
      match init? with
      | none => none
      | some i =>
        if isFiniteRaw mn && isFiniteRaw mx then some ⟨⟨name⟩, mn, mx, i⟩ else none

/-- Layer one of `parseSpec` (source lines 150–169): `raw.split(";")`,
trim each part, drop empties (`filter(Boolean)`), then parse each part
independently, skipping the ones that fail (`continue`). -/
def parseSpecRaw (raw : String) : List RawEntry :=
  if raw = "" then []
  else ((((splitOnChar ';' raw.data).map trimChars).filter (· ≠ [])).filterMap parseEntry)

/-- An unreduced fraction as a rational. -/
def rawToRat (p : RawNum) : ℚ := (p.1 : ℚ) / (p.2 : ℚ)

/-- `parseSpec` (source lines 150–169): the raw entries with their numbers
as rationals. -/
def parseSpec (raw : String) : List RangeSpec :=
  (parseSpecRaw raw).map fun e => ⟨e.name, rawToRat e.min, rawToRat e.max, rawToRat e.init⟩

/-! ## The `Instance` state machine (source lines 209–287) -/

/-- The constructor's init clamp (source lines 230–233):
`if (s.init < s.min) s.init = s.min; if (s.init > s.max) s.init = s.max;`. -/
def clampInitSpec (s : RangeSpec) : RangeSpec :=
  let i1 := if s.init < s.min then s.min else s.init
  let i2 := if i1 > s.max then s.max else i1
  { s with init := i2 }

/-- The value `update()` writes for one spec, as a function of the
progress `t` it computed (source lines 245–256):

```
const isStarted = t > threshold;
const v = (initUntilStart && !isStarted) ? s.init : mapByOrigin(t, s, this.origin);
const vv = Math.max(Math.min(v, s.max), s.min);
``` -/
def appliedValue (threshold : ℚ) (initUntilStart : Bool) (origin : String)
    (s : RangeSpec) (t : ℚ) : ℚ :=
  let isStarted := decide (t > threshold)
  let v := if initUntilStart && !isStarted then s.init else mapByOrigin t s origin
  max (min v s.max) s.min

/-- The full per-call value pass of `update()` (source lines 240–257):
compute the progress, clamp it when configured, and produce the
`(name, value)` pairs written to the element's style. -/
def updateValues (clamp : Bool) (threshold : ℚ) (initUntilStart : Bool) (origin : String)
    (specs : List RangeSpec) (elementTop elementBottom viewportHeight start end' : ℚ) :
    List (String × ℚ) :=
  let t0 := computeProgress elementTop elementBottom viewportHeight start end'
  let t := if clamp then clamp01 t0 else t0
  specs.map fun s => (s.name, appliedValue threshold initUntilStart origin s t)

/-- The four custom events of `updateClasses` (source lines 281–284),
in their dispatch order. -/
inductive SvEvent
  | start
  | enter
  | leave
  | end'
deriving Repr, DecidableEq

/-- The three state flags of an `Instance` (source lines 225–227). -/
structure Flags where
  active : Bool
  started : Bool
  ended : Bool
deriving Repr, DecidableEq

/-- `updateClasses(t, initial)` (source lines 262–286): recompute the
three level flags from `t` and the threshold, and—unless `initial`—emit
the edge-triggered events in the source's dispatch order
(`sv:start`, `sv:enter`, `sv:leave`, `sv:end`). -/
def updateClasses (threshold : ℚ) (f : Flags) (t : ℚ) (initial : Bool) :
    Flags × List SvEvent :=
  let isStarted := decide (t > threshold)
  let isEnded := decide (t ≥ 1 - threshold)
  let isActive := decide (t > threshold) && decide (t < 1 - threshold)
  let events :=
    if initial then []
    else
      (if !f.started && isStarted then [SvEvent.start] else []) ++
      (if !f.active && isActive then [SvEvent.enter] else []) ++
      (if f.active && !isActive then [SvEvent.leave] else []) ++
      (if !f.ended && isEnded then [SvEvent.end'] else [])
  (⟨isActive, isStarted, isEnded⟩, events)

/-- The flag initialisation done by the `Instance` constructor (source
lines 224–227 and 237): flags start all-false and are then set by
`this.updateClasses(0, true)`. -/
def constructorInit (threshold : ℚ) : Flags × List SvEvent :=
  updateClasses threshold ⟨false, false, false⟩ 0 true

/-! ## Helper lemmas -/

/-- The decimal literal in `doubleOverflowCutoff` is `2^1024 - 2^970`. -/
theorem doubleOverflowCutoff_eq : doubleOverflowCutoff = 2 ^ 1024 - 2 ^ 970 := by
  norm_num [doubleOverflowCutoff]

/-- `computeProgress` with its `let` bindings inlined. -/
theorem computeProgress_eq_ite (elementTop elementBottom viewportHeight start end' : ℚ) :
    computeProgress elementTop elementBottom viewportHeight start end' =
      (if elementTop - start * viewportHeight > 0 then 0
       else if elementBottom - end' * viewportHeight ≤ 0 then 1
       else -(elementTop - start * viewportHeight) /
         ((elementBottom - end' * viewportHeight) - (elementTop - start * viewportHeight))) := rfl

/-- `appliedValue` with its `let` bindings inlined. -/
theorem appliedValue_eq_ite (threshold : ℚ) (initUntilStart : Bool) (origin : String)
    (s : RangeSpec) (t : ℚ) :
    appliedValue threshold initUntilStart origin s t =
      max (min (if initUntilStart && !(decide (t > threshold)) then s.init
        else mapByOrigin t s origin) s.max) s.min := rfl

/-- `computeProgress` never returns a negative value, on any input. -/
theorem computeProgress_nonneg (a b v s e : ℚ) : 0 ≤ computeProgress a b v s e := by
  rw [computeProgress_eq_ite]
  split_ifs with h1 h2
  · exact le_refl 0
  · exact zero_le_one
  · push_neg at h1 h2
    exact div_nonneg (by linarith) (by linarith)

/-- `computeProgress` never returns a value above one, on any input. -/
theorem computeProgress_le_one (a b v s e : ℚ) : computeProgress a b v s e ≤ 1 := by
  rw [computeProgress_eq_ite]
  split_ifs with h1 h2
  · exact zero_le_one
  · exact le_refl 1
  · push_neg at h1 h2
    rw [div_le_one (by linarith)]
    linarith

/-- Shifting both element edges up by `d ≥ 0` (scrolling the element
upward) never decreases the progress, on any input: the difference
`B - A` is invariant under the shift, so the interior branch moves
`-A / (B - A)` up, and the guard branches only ever hand over to larger
values. -/
theorem computeProgress_mono (a b v s e d : ℚ) (hd : 0 ≤ d) :
    computeProgress a b v s e ≤ computeProgress (a - d) (b - d) v s e := by
  by_cases h1 : a - s * v > 0
  · rw [computeProgress_eq_ite a, if_pos h1]
    exact computeProgress_nonneg _ _ _ _ _
  · push_neg at h1
    by_cases h2 : b - e * v ≤ 0
    · have hr : computeProgress (a - d) (b - d) v s e = 1 := by
        rw [computeProgress_eq_ite]
        rw [if_neg (by push_neg; linarith), if_pos (by linarith)]
      rw [hr]
      exact computeProgress_le_one _ _ _ _ _
    · push_neg at h2
      rw [computeProgress_eq_ite a]
      rw [if_neg (by push_neg; linarith), if_neg (by push_neg; linarith)]
      by_cases h3 : b - d - e * v ≤ 0
      · have hr : computeProgress (a - d) (b - d) v s e = 1 := by
          rw [computeProgress_eq_ite]
          rw [if_neg (by push_neg; linarith), if_pos (by linarith)]
        rw [hr, div_le_one (by linarith)]
        linarith
      · push_neg at h3
        rw [computeProgress_eq_ite]
        rw [if_neg (by push_neg; linarith), if_neg (by push_neg; linarith)]
        have hden : (b - d - e * v) - (a - d - s * v) = (b - e * v) - (a - s * v) := by
          ring
        rw [hden, div_le_div_right (by linarith)]
        linarith

/-! ## Claim theorems -/

/-- Claim C1 (corrected), theorem: `computeProgress` returns exactly 0
whenever `elementTop > start*viewportHeight`; it returns exactly 1
whenever `elementBottom ≤ end*viewportHeight` AND additionally
`elementTop ≤ start*viewportHeight` (the top guard is tested first). -/
theorem computeProgress_guard_values (a b v s e : ℚ) :
    (s * v < a → computeProgress a b v s e = 0) ∧
    (a ≤ s * v → b ≤ e * v → computeProgress a b v s e = 1) := by
  constructor
  · intro h
    rw [computeProgress_eq_ite, if_pos (by linarith)]
  · intro ha hb
    rw [computeProgress_eq_ite, if_neg (by push_neg; linarith), if_pos (by linarith)]

/-- Claim C1, witness: both guards evaluated at concrete inputs. -/
theorem computeProgress_guard_values_witness :
    ((0:ℚ) * 100 < 50 ∧ computeProgress 50 150 100 0 1 = 0) ∧
    ((-10:ℚ) ≤ 0 * 100 ∧ (90:ℚ) ≤ 1 * 100 ∧ computeProgress (-10) 90 100 0 1 = 1) :=
  ⟨⟨by norm_num, (computeProgress_guard_values 50 150 100 0 1).1 (by norm_num)⟩,
   ⟨by norm_num, by norm_num,
    (computeProgress_guard_values (-10) 90 100 0 1).2 (by norm_num) (by norm_num)⟩⟩

/-- Claim C1, counterexample: with `elementTop = 10 > 0 = start*vh` and
`elementBottom = 20 ≤ 100 = end*vh`, the source returns 0, not the 1 the
claim demands for any input with `elementBottom ≤ end*viewportHeight`. -/
theorem computeProgress_bottom_guard_counterexample :
    (20:ℚ) ≤ 1 * 100 ∧ computeProgress 10 20 100 0 1 = 0 ∧
    computeProgress 10 20 100 0 1 ≠ 1 := by
  rw [computeProgress_eq_ite]
  norm_num

/-- Claim C3, theorem: for `elementTop ≤ elementBottom` and
`start ≤ end`, `computeProgress` lands in `[0,1]` and is monotonically
non-decreasing as the element scrolls upward by any `d ≥ 0`. -/
theorem computeProgress_range_and_monotone (a b v s e d : ℚ)
    (hab : a ≤ b) (hse : s ≤ e) (hd : 0 ≤ d) :
    (0 ≤ computeProgress a b v s e ∧ computeProgress a b v s e ≤ 1) ∧
    computeProgress a b v s e ≤ computeProgress (a - d) (b - d) v s e :=
  ⟨⟨computeProgress_nonneg a b v s e, computeProgress_le_one a b v s e⟩,
   computeProgress_mono a b v s e d hd⟩

/-- Claim C3, witness: range and monotonicity at a concrete geometry. -/
theorem computeProgress_range_and_monotone_witness :
    ((-25:ℚ) ≤ 175 ∧ (0:ℚ) ≤ (1:ℚ) ∧ (0:ℚ) ≤ 50) ∧
    ((0 ≤ computeProgress (-25) 175 100 0 1 ∧ computeProgress (-25) 175 100 0 1 ≤ 1) ∧
      computeProgress (-25) 175 100 0 1 ≤ computeProgress (-25 - 50) (175 - 50) 100 0 1) :=
  ⟨⟨by norm_num, by norm_num, by norm_num⟩,
   computeProgress_range_and_monotone (-25) 175 100 0 1 50
     (by norm_num) (by norm_num) (by norm_num)⟩

/-- Claim C4 (corrected), theorem: when neither clamp guard fires
(`A ≤ 0` and `B > 0`), `computeProgress` returns `-A / (B - A)`, which
lies in the half-open interval `[0, 1)` — it is strictly positive
exactly when `A < 0`, and equals 0 at `A = 0`. -/
theorem computeProgress_interior_formula (a b v s e : ℚ)
    (h1 : a - s * v ≤ 0) (h2 : 0 < b - e * v) :
    computeProgress a b v s e = -(a - s * v) / ((b - e * v) - (a - s * v)) ∧
    0 ≤ computeProgress a b v s e ∧ computeProgress a b v s e < 1 ∧
    (0 < computeProgress a b v s e ↔ a - s * v < 0) := by
  have heq : computeProgress a b v s e = -(a - s * v) / ((b - e * v) - (a - s * v)) := by
    rw [computeProgress_eq_ite, if_neg (by push_neg; linarith), if_neg (by push_neg; linarith)]
  have hden : 0 < (b - e * v) - (a - s * v) := by linarith
  refine ⟨heq, ?_, ?_, ?_⟩
  · rw [heq]
    exact div_nonneg (by linarith) (by linarith)
  · rw [heq, div_lt_one hden]
    linarith
  · rw [heq]
    constructor
    · intro h
      by_contra hc
      push_neg at hc
      have hz : a - s * v = 0 := le_antisymm h1 hc
      rw [hz] at h
      simp at h
    · intro h
      exact div_pos (by linarith) hden

/-- Claim C4, witness: the interior formula at a concrete geometry. -/
theorem computeProgress_interior_formula_witness :
    ((-25:ℚ) - 0 * 100 ≤ 0) ∧ ((0:ℚ) < 175 - 1 * 100) ∧
    computeProgress (-25) 175 100 0 1 = 1/4 := by
  refine ⟨by norm_num, by norm_num, ?_⟩
  have h := (computeProgress_interior_formula (-25) 175 100 0 1 (by norm_num) (by norm_num)).1
  rw [h]
  norm_num

/-- Claim C4, counterexample: at `A = 0`, `B = 5 > 0` neither guard
fires and the returned `t = -A/(B-A) = 0` is not strictly inside
`(0, 1)` as the claim states. -/
theorem computeProgress_interior_not_strictly_positive :
    ((0:ℚ) - 0 * 10 ≤ 0) ∧ ((0:ℚ) < 10 - (1/2) * 10) ∧
    computeProgress 0 10 10 0 (1/2) = 0 ∧
    ¬(0 < computeProgress 0 10 10 0 (1/2)) := by
  rw [computeProgress_eq_ite]
  norm_num

/-- Claim C5, theorem: in the degenerate case `elementTop = start*vh`
and `elementBottom = end*vh` (`A = B = 0`), `computeProgress` returns
exactly 1 through the `B ≤ 0` guard — the second conjunct records that
this guard fires, so the division `-A / (B - A)` on the branch behind it
is never evaluated and no `0 / 0` (`NaN`) arises. -/
theorem computeProgress_degenerate_straddle (a b v s e : ℚ)
    (ha : a = s * v) (hb : b = e * v) :
    computeProgress a b v s e = 1 ∧ b - e * v ≤ 0 := by
  subst ha hb
  refine ⟨?_, by linarith⟩
  rw [computeProgress_eq_ite, if_neg (by push_neg; linarith), if_pos (by linarith)]

/-- Claim C5, witness: the straddle instant at a concrete geometry
(`start = 0`, `end = 1`, element exactly filling the viewport). -/
theorem computeProgress_degenerate_straddle_witness :
    (0:ℚ) = 0 * 100 ∧ (100:ℚ) = 1 * 100 ∧ computeProgress 0 100 100 0 1 = 1 :=
  ⟨by norm_num, by norm_num,
   (computeProgress_degenerate_straddle 0 100 100 0 1 (by norm_num) (by norm_num)).1⟩

/-- Claim C2 (corrected), theorem: for a reversed range (`min > max`,
stated as `max ≤ min`), the defensive clamp
`Math.max(Math.min(v, s.max), s.min)` in `update()` collapses every
value to `min`: the applied value is constantly `s.min`, for every
progress `t`, origin mode, and `initUntilStart` setting, so the
origin-mapped reversed interpolation is not preserved. -/
theorem appliedValue_reversed_range (threshold : ℚ) (initUntilStart : Bool)
    (origin : String) (s : RangeSpec) (t : ℚ) (h : s.max ≤ s.min) :
    appliedValue threshold initUntilStart origin s t = s.min := by
  rw [appliedValue_eq_ite]
  exact max_eq_right (le_trans (min_le_right _ _) h)

/-- Claim C2, witness: the collapse at the concrete reversed spec
`--x=5..0` and `t = 1/2`. -/
theorem appliedValue_reversed_range_witness :
    (RangeSpec.max ⟨"--x", 5, 0, 0⟩ ≤ RangeSpec.min ⟨"--x", 5, 0, 0⟩) ∧
    appliedValue (1/2000) true "min" ⟨"--x", 5, 0, 0⟩ (1/2) = 5 :=
  ⟨by norm_num,
   appliedValue_reversed_range (1/2000) true "min" ⟨"--x", 5, 0, 0⟩ (1/2) (by norm_num)⟩

/-- Claim C2, counterexample: for the reversed spec `--x=5..0` at
`t = 1/2` with origin `"min"`, the origin-mapped value is `5/2` and
re-clamping it into `[max, min] = [0, 5]` keeps `5/2`, but `update()`
applies `5` — not the re-clamped origin-mapped result the claim
promises. -/
theorem appliedValue_reversed_range_counterexample :
    RangeSpec.min ⟨"--x", 5, 0, 0⟩ > RangeSpec.max ⟨"--x", 5, 0, 0⟩ ∧
    mapByOrigin (1/2) ⟨"--x", 5, 0, 0⟩ "min" = 5/2 ∧
    max (min (mapByOrigin (1/2) ⟨"--x", 5, 0, 0⟩ "min") (RangeSpec.min ⟨"--x", 5, 0, 0⟩))
      (RangeSpec.max ⟨"--x", 5, 0, 0⟩) = 5/2 ∧
    appliedValue (1/2000) true "min" ⟨"--x", 5, 0, 0⟩ (1/2) = 5 ∧
    ((5:ℚ) ≠ 5/2) := by
  have hst : ((1:ℚ)/2000 < 1/2) := by norm_num
  refine ⟨by norm_num, ?_, ?_, ?_, by norm_num⟩
  · norm_num [mapByOrigin]
  · norm_num [mapByOrigin, max_def, min_def]
  · norm_num [appliedValue, mapByOrigin, hst, max_def, min_def]

/-- Claim C6, theorem: on a non-initial `updateClasses` call the flags
become the levels computed from the current `t`, each notification fires
exactly on its edge against the previous cycle's flags (`sv:start` iff
started went false→true, `sv:enter` iff active went false→true,
`sv:leave` iff active went true→false, `sv:end` iff ended went
false→true), the emitted list is always in the fixed dispatch order
start, enter/leave, end; and the constructor's initial call sets the
flags exactly as an update at `t = 0` would while firing nothing. -/
theorem updateClasses_edge_events (threshold t : ℚ) (f : Flags) :
    ((updateClasses threshold f t false).1 =
        ⟨decide (t > threshold) && decide (t < 1 - threshold), decide (t > threshold),
          decide (t ≥ 1 - threshold)⟩) ∧
    (SvEvent.start ∈ (updateClasses threshold f t false).2 ↔
      (f.started = false ∧ t > threshold)) ∧
    (SvEvent.enter ∈ (updateClasses threshold f t false).2 ↔
      (f.active = false ∧ (t > threshold ∧ t < 1 - threshold))) ∧
    (SvEvent.leave ∈ (updateClasses threshold f t false).2 ↔
      (f.active = true ∧ ¬(t > threshold ∧ t < 1 - threshold))) ∧
    (SvEvent.end' ∈ (updateClasses threshold f t false).2 ↔
      (f.ended = false ∧ t ≥ 1 - threshold)) ∧
    (updateClasses threshold f t false).2.Sublist
      [SvEvent.start, SvEvent.enter, SvEvent.leave, SvEvent.end'] ∧
    (updateClasses threshold f t true).2 = [] ∧
    constructorInit threshold = ((updateClasses threshold ⟨false, false, false⟩ 0 false).1, []) := by
  obtain ⟨fa, fs, fe⟩ := f
  by_cases h1 : t > threshold <;> by_cases h3 : t < 1 - threshold <;>
    cases fa <;> cases fs <;> cases fe <;>
      simp [updateClasses, constructorInit, h1, h3, not_lt.mp, le_of_not_lt,
        not_le.mpr, List.Sublist]

/-- Claim C7 (corrected), theorem: with `initUntilStart` enabled and the
call not started (`t ≤ threshold`), the applied value for a
constructor-clamped spec with `min ≤ max` is exactly the spec's `init`,
for every origin mode.  Because the statement holds for every such `t`
with no reference to past state, a later call whose progress regresses to
`t ≤ threshold` snaps back to `init` again — `isStarted` is recomputed
fresh, there is no one-shot latch. -/
theorem appliedValue_init_until_start (threshold : ℚ) (origin : String) (s : RangeSpec)
    (t : ℚ) (hmm : s.min ≤ s.max) (ht : t ≤ threshold) :
    appliedValue threshold true origin (clampInitSpec s) t = (clampInitSpec s).init := by
  have hb : decide (t > threshold) = false := decide_eq_false (not_lt.mpr ht)
  have hlo : s.min ≤ (clampInitSpec s).init := by
    simp only [clampInitSpec]
    split_ifs <;> linarith
  have hhi : (clampInitSpec s).init ≤ s.max := by
    simp only [clampInitSpec]
    split_ifs <;> linarith
  rw [appliedValue_eq_ite, hb]
  simp only [Bool.not_false, Bool.and_true, if_true]
  have h1 : min (clampInitSpec s).init (clampInitSpec s).max = (clampInitSpec s).init :=
    min_eq_left hhi
  have h2 : max (clampInitSpec s).init (clampInitSpec s).min = (clampInitSpec s).init :=
    max_eq_left hlo
  rw [h1, h2]

/-- Claim C7, witness: a not-yet-started call (`t = 0`) holds `init` for
the concrete spec `--x=0..1@0.5`. -/
theorem appliedValue_init_until_start_witness :
    (RangeSpec.min ⟨"--x", 0, 1, 1/2⟩ ≤ RangeSpec.max ⟨"--x", 0, 1, 1/2⟩) ∧
    ((0:ℚ) ≤ 1/2000) ∧
    appliedValue (1/2000) true "init" (clampInitSpec ⟨"--x", 0, 1, 1/2⟩) 0 =
      (clampInitSpec ⟨"--x", 0, 1, 1/2⟩).init :=
  ⟨by norm_num, by norm_num,
   appliedValue_init_until_start (1/2000) "init" ⟨"--x", 0, 1, 1/2⟩ 0 (by norm_num) (by norm_num)⟩

/-- Claim C7, counterexample: for the reversed spec `--x=5..0@2` the
constructor clamp leaves `init = 0`, yet a not-started `update()` call
(`t = 0 ≤ threshold`, `initUntilStart` on) applies `5`, not `init` —
the final clamp overrides the held `init` when `min > max`. -/
theorem appliedValue_init_until_start_counterexample :
    (clampInitSpec ⟨"--x", 5, 0, 2⟩).init = 0 ∧
    ((0:ℚ) ≤ 1/2000) ∧
    appliedValue (1/2000) true "init" (clampInitSpec ⟨"--x", 5, 0, 2⟩) 0 = 5 ∧
    ((5:ℚ) ≠ 0) := by
  have h : clampInitSpec ⟨"--x", 5, 0, 2⟩ = ⟨"--x", 5, 0, 0⟩ := by
    simp [clampInitSpec]
    norm_num
  refine ⟨by rw [h], by norm_num, ?_, by norm_num⟩
  rw [h, appliedValue_eq_ite]
  have hb : decide ((0:ℚ) > 1/2000) = false := decide_eq_false (by norm_num)
  rw [hb]
  norm_num [max_def, min_def]

set_option maxRecDepth 4000 in
/-- Claim C8, theorem: `parseSpec` follows the partial-success policy.
The concrete declaration `--x=-5..5@0;--scale=0..1` parses to exactly
the two claimed entries, with `init` defaulting to `min` when `@init`
is omitted; a malformed sibling entry (`--bad=notanumber..5`) is dropped
individually while the valid entries still parse; and an entry whose
`init` or whose `min` is non-finite (the string `Infinity`, or a
literal past the double-overflow cutoff `2^1024`) is discarded entirely,
again without affecting siblings. -/
theorem parseSpec_partial_success :
    parseSpec "--x=-5..5@0;--scale=0..1" =
      [⟨"--x", -5, 5, 0⟩, ⟨"--scale", 0, 1, 0⟩] ∧
    parseSpec "--bad=notanumber..5;--x=-5..5@0;--scale=0..1" =
      [⟨"--x", -5, 5, 0⟩, ⟨"--scale", 0, 1, 0⟩] ∧
    parseSpec "--x=0..1@Infinity" = [] ∧
    parseSpec "--x=0..1@179769313486231590772930519078902473361797697894230657273430081157732675805500963132708477322407536021120113879871393357658789768814416622492847430639474124377767893424865485276302219601246094119453082952085005768838150682342462881473913110540827237163350510684586298239947245938479716304835356329624224137216" = [] ∧
    parseSpec "--x=179769313486231590772930519078902473361797697894230657273430081157732675805500963132708477322407536021120113879871393357658789768814416622492847430639474124377767893424865485276302219601246094119453082952085005768838150682342462881473913110540827237163350510684586298239947245938479716304835356329624224137216..5;--ok=0..1" = [⟨"--ok", 0, 1, 0⟩] := by
  have h1 : parseSpecRaw "--x=-5..5@0;--scale=0..1" =
      [⟨"--x", (-5, 1), (5, 1), (0, 1)⟩, ⟨"--scale", (0, 1), (1, 1), (0, 1)⟩] := by decide
  have h2 : parseSpecRaw "--bad=notanumber..5;--x=-5..5@0;--scale=0..1" =
      [⟨"--x", (-5, 1), (5, 1), (0, 1)⟩, ⟨"--scale", (0, 1), (1, 1), (0, 1)⟩] := by decide
  have h3 : parseSpecRaw "--x=0..1@Infinity" = [] := by decide
  have h4 : parseSpecRaw "--x=0..1@179769313486231590772930519078902473361797697894230657273430081157732675805500963132708477322407536021120113879871393357658789768814416622492847430639474124377767893424865485276302219601246094119453082952085005768838150682342462881473913110540827237163350510684586298239947245938479716304835356329624224137216" = [] := by decide
  have h5 : parseSpecRaw "--x=179769313486231590772930519078902473361797697894230657273430081157732675805500963132708477322407536021120113879871393357658789768814416622492847430639474124377767893424865485276302219601246094119453082952085005768838150682342462881473913110540827237163350510684586298239947245938479716304835356329624224137216..5;--ok=0..1" =
      [⟨"--ok", (0, 1), (1, 1), (0, 1)⟩] := by decide
  refine ⟨?_, ?_, ?_, ?_, ?_⟩ <;>
    simp [parseSpec, h1, h2, h3, h4, h5, rawToRat]

/-- Claim C9, theorem: `mapByOrigin` computes the three documented
interpolation formulas, with the documented endpoint values: `t = 0`
maps to `min`, `min` (the lower extreme), and `init` respectively;
`t = 1` maps to `max` in the `min` and `init` modes; and `t = 1/2`
maps to the midpoint in `center` mode. -/
theorem mapByOrigin_origin_formulas (t : ℚ) (s : RangeSpec) :
    mapByOrigin t s "min" = s.min + t * (s.max - s.min) ∧
    mapByOrigin t s "center" = (s.min + s.max) / 2 + (t - 1/2) * (s.max - s.min) ∧
    mapByOrigin t s "init" = s.init + t * (s.max - s.init) ∧
    mapByOrigin 0 s "min" = s.min ∧ mapByOrigin 1 s "min" = s.max ∧
    mapByOrigin 0 s "center" = s.min ∧
    mapByOrigin (1/2) s "center" = (s.min + s.max) / 2 ∧
    mapByOrigin 0 s "init" = s.init ∧ mapByOrigin 1 s "init" = s.max := by
  refine ⟨?_, ?_, ?_, ?_, ?_, ?_, ?_, ?_, ?_⟩ <;> simp [mapByOrigin] <;> ring

/-- Claim C10, theorem: for all (finite, here: rational) inputs and
without any ordering precondition, `computeProgress` already returns a
value in `[0, 1]`, so composing with `clamp01` is the identity on its
output and the clamp configuration toggle never changes the progress. -/
theorem computeProgress_in_unit_interval_clamp_id (a b v s e : ℚ) :
    0 ≤ computeProgress a b v s e ∧ computeProgress a b v s e ≤ 1 ∧
    clamp01 (computeProgress a b v s e) = computeProgress a b v s e := by
  refine ⟨computeProgress_nonneg a b v s e, computeProgress_le_one a b v s e, ?_⟩
  rw [clamp01, if_neg (not_lt.mpr (computeProgress_nonneg a b v s e)),
    if_neg (not_lt.mpr (computeProgress_le_one a b v s e))]
